import Mathlib

/-!
Verification of the sarkas_lux force-kernel and parameter-setup layer.

This file shallowly embeds the Python sources of the repository
(`sarkas/potentials/egs.py`, `sarkas/potentials/tabulated.py`,
`sarkas/utilities/maths.py`, `sarkas/simulation/params.py`) into Lean.
Python floats are modelled by real numbers, numpy arrays by lists or by
index functions, and fallible code (assertions, `sys.exit`, raised
exceptions, reads of unbound locals, out-of-bounds reads) by
`Option`/`Except` results.  The `numba.jit` decorators are treated as
annotations: the embedding follows plain Python value semantics.
-/

set_option linter.unusedVariables false

open Real

/-- Python booleans used in arithmetic: `True` is `1.0`, `False` is `0.0`.
Models expressions such as `r_in * (r_in >= rs)` in the sources. -/
noncomputable def pyBool (b : Prop) [Decidable b] : ℝ :=
  if b then 1 else 0

/-! ## `sarkas/potentials/egs.py` -/

/-- The branchless short-range regularization of `egs_force`
(`egs.py` line 247): `r = r_in * (r_in >= rs) + rs * (r_in < rs)`. -/
noncomputable def egs_clamp (r_in rs : ℝ) : ℝ :=
  r_in * pyBool (rs ≤ r_in) + rs * pyBool (r_in < rs)

/-- The body of `egs_force` after the regularization (`egs.py` lines 250-267),
evaluated at the already-clamped distance `r`.
`p` is the 1-D slice of the parameter tensor (`pot_matrix`). -/
noncomputable def egs_force_at (r : ℝ) (p : ℕ → ℝ) : ℝ × ℝ :=
  if p 1 ≤ 1 then
    let temp1 := p 2 * Real.exp (-(r * p 4))
    let temp2 := p 3 * Real.exp (-(r * p 5))
    let U := (temp1 + temp2) * p 0 / r
    (U, U / r + p 0 * (temp1 * p 4 + temp2 * p 5) / r)
  else
    let coskr := Real.cos (r * p 4)
    let sinkr := Real.sin (r * p 4)
    let expkr := p 0 * Real.exp (-(r * p 5))
    let U := (coskr + p 3 * sinkr) * expkr / r
    (U, U / r + U * p 5 + p 4 * (sinkr - p 3 * coskr) * expkr / r)

/-- `egs_force(r_in, pot_matrix)` from `egs.py` lines 206-267: clamp the
distance at the short-range cutoff `pot_matrix[6]`, then evaluate the
branch selected by `nu = pot_matrix[1]`. -/
noncomputable def egs_force (r_in : ℝ) (p : ℕ → ℝ) : ℝ × ℝ :=
  egs_force_at (egs_clamp r_in (p 6)) p

/-- The pair potential `U(r)` of the monotonic (`nu <= 1`) EGS branch as the
claim writes it: `p[0]*(p[2]*exp(-r*p[4]) + p[3]*exp(-r*p[5]))/r`. -/
noncomputable def egsU (p : ℕ → ℝ) (x : ℝ) : ℝ :=
  p 0 * (p 2 * Real.exp (-(x * p 4)) + p 3 * Real.exp (-(x * p 5))) / x

/-- The parameter-matrix fill of `egs.update_params` (`egs.py` lines 168-190):
`matrix = zeros((7, S, S))`, `matrix[1] = nu`, slots `0, 2..5` filled per
species pair according to the sign of `nu - 1`, `matrix[6] = a_rs`.
The scalars `nu, alpha, alphap, lambda_m, lambda_p, gamma_m, gamma_p` are the
`params` fields computed earlier in `update_params`; `q` lists the species
charges and `fourpie0` is `params.fourpie0`. -/
noncomputable def egs_matrix (S : ℕ) (nu alpha alphap lambda_m lambda_p gamma_m gamma_p
    fourpie0 a_rs : ℝ) (q : ℕ → ℝ) (k i j : ℕ) : ℝ :=
  if i < S ∧ j < S then
    if k = 0 then (if nu ≤ 1 then q i * q j / (2 * fourpie0) else q i * q j / fourpie0)
    else if k = 1 then nu
    else if k = 2 then (if nu ≤ 1 then 1 + alpha else 1)
    else if k = 3 then (if nu ≤ 1 then 1 - alpha else alphap)
    else if k = 4 then (if nu ≤ 1 then 1 / lambda_m else 1 / gamma_m)
    else if k = 5 then (if nu ≤ 1 then 1 / lambda_p else 1 / gamma_p)
    else if k = 6 then a_rs
    else 0
  else 0

/-! ## Helper lemmas -/

theorem egs_clamp_eq_max (r_in rs : ℝ) : egs_clamp r_in rs = max r_in rs := by
  unfold egs_clamp pyBool
  rcases le_or_lt rs r_in with h | h
  · rw [if_pos h, if_neg (not_lt.mpr h), max_eq_left h]; ring
  · rw [if_neg (not_le.mpr h), if_pos h, max_eq_right h.le]; ring

theorem egsU_hasDerivAt (p : ℕ → ℝ) (x : ℝ) (hx : x ≠ 0) :
    HasDerivAt (egsU p)
      ((p 0 * (p 2 * (Real.exp (-(x * p 4)) * -(p 4)) + p 3 * (Real.exp (-(x * p 5)) * -(p 5))) * x -
        p 0 * (p 2 * Real.exp (-(x * p 4)) + p 3 * Real.exp (-(x * p 5))) * 1) / x ^ 2) x := by
  have h4 : HasDerivAt (fun y : ℝ => -(y * p 4)) (-(p 4)) x := (hasDerivAt_mul_const (p 4)).neg
  have h5 : HasDerivAt (fun y : ℝ => -(y * p 5)) (-(p 5)) x := (hasDerivAt_mul_const (p 5)).neg
  have num : HasDerivAt
      (fun y : ℝ => p 0 * (p 2 * Real.exp (-(y * p 4)) + p 3 * Real.exp (-(y * p 5))))
      (p 0 * (p 2 * (Real.exp (-(x * p 4)) * -(p 4)) + p 3 * (Real.exp (-(x * p 5)) * -(p 5)))) x :=
    ((h4.exp.const_mul (p 2)).add (h5.exp.const_mul (p 3))).const_mul (p 0)
  have hdiv := num.div (hasDerivAt_id x) hx
  simpa [egsU] using hdiv

/-! ## Claim theorems for the EGS kernel -/

/-- Claim C3 (confirmed): for every input distance `r_in > 0` and every EGS
parameter slice `p`, `egs_force(r_in, p) = egs_force(max(r_in, a_rs), p)`
with `a_rs = p[6]`, and in particular for `r_in < a_rs` the returned pair
equals the one evaluated at `r = a_rs` exactly. -/
theorem egs_force_regularization (r_in : ℝ) (p : ℕ → ℝ) (h : 0 < r_in) :
    egs_force r_in p = egs_force (max r_in (p 6)) p ∧
    (r_in < p 6 → egs_force r_in p = egs_force (p 6) p) := by
  constructor
  · unfold egs_force
    rw [egs_clamp_eq_max, egs_clamp_eq_max, max_eq_left (le_max_right r_in (p 6))]
  · intro hlt
    unfold egs_force
    rw [egs_clamp_eq_max, egs_clamp_eq_max, max_eq_right hlt.le, max_self]

theorem egs_force_regularization_witness :
    (0 : ℝ) < 1 ∧
    (egs_force 1 (fun _ => 2) = egs_force (max 1 ((fun _ : ℕ => (2 : ℝ)) 6)) (fun _ => 2) ∧
      ((1 : ℝ) < (fun _ : ℕ => (2 : ℝ)) 6 →
        egs_force 1 (fun _ => 2) = egs_force ((fun _ : ℕ => (2 : ℝ)) 6) (fun _ => 2))) :=
  ⟨by norm_num, egs_force_regularization 1 (fun _ => 2) (by norm_num)⟩

/-- Claim C4 (confirmed): `egs_force` evaluates the sum-of-two-Yukawa form
`p[0]*(p[2]*exp(-r*p[4]) + p[3]*exp(-r*p[5]))/r` exactly when
`nu = p[1] <= 1` and the oscillatory form
`p[0]*(cos(r*p[4]) + p[3]*sin(r*p[4]))*exp(-r*p[5])/r` exactly when
`nu > 1` (both at the regularized distance), and `update_params` fills
slots `2..5` with `(1+alpha, 1-alpha, 1/lambda_minus, 1/lambda_plus)` when
`nu <= 1` and with `(1, alpha_prime, 1/gamma_minus, 1/gamma_plus)` when
`nu > 1`; slot `1` holds `nu` for every species pair, so the branch taken
depends only on the parameter set, never on the pair. -/
theorem egs_branch_forms :
    (∀ (r_in : ℝ) (p : ℕ → ℝ),
      (p 1 ≤ 1 → (egs_force r_in p).1 =
        p 0 * (p 2 * Real.exp (-(egs_clamp r_in (p 6) * p 4)) +
          p 3 * Real.exp (-(egs_clamp r_in (p 6) * p 5))) / egs_clamp r_in (p 6)) ∧
      (1 < p 1 → (egs_force r_in p).1 =
        p 0 * (Real.cos (egs_clamp r_in (p 6) * p 4) +
          p 3 * Real.sin (egs_clamp r_in (p 6) * p 4)) *
          Real.exp (-(egs_clamp r_in (p 6) * p 5)) / egs_clamp r_in (p 6))) ∧
    (∀ (S : ℕ) (nu alpha alphap lambda_m lambda_p gamma_m gamma_p fourpie0 a_rs : ℝ)
        (q : ℕ → ℝ) (i j : ℕ), i < S → j < S →
      (egs_matrix S nu alpha alphap lambda_m lambda_p gamma_m gamma_p fourpie0 a_rs q 1 i j = nu) ∧
      (nu ≤ 1 →
        egs_matrix S nu alpha alphap lambda_m lambda_p gamma_m gamma_p fourpie0 a_rs q 2 i j = 1 + alpha ∧
        egs_matrix S nu alpha alphap lambda_m lambda_p gamma_m gamma_p fourpie0 a_rs q 3 i j = 1 - alpha ∧
        egs_matrix S nu alpha alphap lambda_m lambda_p gamma_m gamma_p fourpie0 a_rs q 4 i j = 1 / lambda_m ∧
        egs_matrix S nu alpha alphap lambda_m lambda_p gamma_m gamma_p fourpie0 a_rs q 5 i j = 1 / lambda_p) ∧
      (1 < nu →
        egs_matrix S nu alpha alphap lambda_m lambda_p gamma_m gamma_p fourpie0 a_rs q 2 i j = 1 ∧
        egs_matrix S nu alpha alphap lambda_m lambda_p gamma_m gamma_p fourpie0 a_rs q 3 i j = alphap ∧
        egs_matrix S nu alpha alphap lambda_m lambda_p gamma_m gamma_p fourpie0 a_rs q 4 i j = 1 / gamma_m ∧
        egs_matrix S nu alpha alphap lambda_m lambda_p gamma_m gamma_p fourpie0 a_rs q 5 i j = 1 / gamma_p)) := by
  constructor
  · intro r_in p
    constructor
    · intro hnu
      unfold egs_force egs_force_at
      rw [if_pos hnu]
      ring
    · intro hnu
      unfold egs_force egs_force_at
      rw [if_neg (not_le.mpr hnu)]
      ring
  · intro S nu alpha alphap lambda_m lambda_p gamma_m gamma_p fourpie0 a_rs q i j hi hj
    refine ⟨?_, fun hnu => ?_, fun hnu => ?_⟩
    · simp [egs_matrix, hi, hj]
    · refine ⟨?_, ?_, ?_, ?_⟩ <;> simp [egs_matrix, hi, hj, hnu]
    · have hnu' := not_le.mpr hnu
      refine ⟨?_, ?_, ?_, ?_⟩ <;> simp [egs_matrix, hi, hj, hnu']

theorem egs_branch_forms_witness :
    ((fun _ : ℕ => (0 : ℝ)) 1 ≤ 1 ∧
      (egs_force 1 (fun _ => 0)).1 =
        (fun _ : ℕ => (0 : ℝ)) 0 * ((fun _ : ℕ => (0 : ℝ)) 2 *
          Real.exp (-(egs_clamp 1 ((fun _ : ℕ => (0 : ℝ)) 6) * (fun _ : ℕ => (0 : ℝ)) 4)) +
          (fun _ : ℕ => (0 : ℝ)) 3 *
          Real.exp (-(egs_clamp 1 ((fun _ : ℕ => (0 : ℝ)) 6) * (fun _ : ℕ => (0 : ℝ)) 5))) /
          egs_clamp 1 ((fun _ : ℕ => (0 : ℝ)) 6)) ∧
    ((0 : ℕ) < 1 ∧ (0 : ℝ) ≤ 1 ∧
      egs_matrix 1 0 3 4 5 6 7 8 9 10 (fun _ => 1) 2 0 0 = 1 + 3) :=
  ⟨⟨by norm_num, (egs_branch_forms.1 1 (fun _ => 0)).1 (by norm_num)⟩,
   ⟨by norm_num, by norm_num,
    ((egs_branch_forms.2 1 0 3 4 5 6 7 8 9 10 (fun _ => 1) 0 0
      (by norm_num) (by norm_num)).2.1 (by norm_num)).1⟩⟩

/-- Claim C1 (amended): for `r` at or above the cutoff `a_rs = p[6]` and
`nu = p[1] <= 1`, `egs_force(r, p)` returns as first component
`U(r) = p[0]*(p[2]*exp(-r*p[4]) + p[3]*exp(-r*p[5]))/r` and as second
component `-U'(r)` — the magnitude of the force, not `|F|/r` — so the
vector force on `i` from `j` is `(r_i - r_j)/r` times the second
component. -/
theorem egs_force_neg_deriv (p : ℕ → ℝ) (r : ℝ) (hrs : p 6 ≤ r) (hr : 0 < r)
    (hnu : p 1 ≤ 1) :
    (egs_force r p).1 = egsU p r ∧ (egs_force r p).2 = -(deriv (egsU p) r) := by
  have hclamp : egs_clamp r (p 6) = r := by
    rw [egs_clamp_eq_max, max_eq_left hrs]
  have hd := (egsU_hasDerivAt p r hr.ne').deriv
  simp only [egs_force, egs_force_at, hclamp, if_pos hnu, hd]
  constructor
  · unfold egsU; ring
  · field_simp [hr.ne']
    ring

/-- Parameter slice used for the C1 counterexample and witness:
`p[0] = p[2] = 1`, all other slots `0`, so that `nu = 0 <= 1`, the
exponentials are `exp 0 = 1`, the cutoff is `0`, and
`U(x) = 1/x` exactly. -/
noncomputable def p_one : ℕ → ℝ := fun i => if i = 0 then 1 else if i = 2 then 1 else 0

/-- Claim C1 counterexample: with the slice `p_one` (so `U(x) = 1/x`) at
distance `r = 2`, the code returns `1/4 = -U'(2)` as second component,
while the claim's value `|F|/r = -U'(2)/2` is `1/8`: the second component
of `egs_force` is not `-U'(r)/r`. -/
theorem egs_force_not_f_over_r :
    (egs_force 2 p_one).2 = 1 / 4 ∧ -(deriv (egsU p_one) 2) / 2 = 1 / 8 ∧
      ((1 : ℝ) / 4 ≠ 1 / 8) := by
  have hd := (egsU_hasDerivAt p_one 2 (by norm_num)).deriv
  refine ⟨?_, ?_, by norm_num⟩
  · unfold egs_force egs_force_at
    rw [egs_clamp_eq_max]
    norm_num [p_one]
  · rw [hd]
    norm_num [p_one]

theorem egs_force_neg_deriv_witness :
    p_one 6 ≤ 2 ∧ (0 : ℝ) < 2 ∧ p_one 1 ≤ 1 ∧
      ((egs_force 2 p_one).1 = egsU p_one 2 ∧
        (egs_force 2 p_one).2 = -(deriv (egsU p_one) 2)) :=
  ⟨by norm_num [p_one], by norm_num, by norm_num [p_one],
   egs_force_neg_deriv p_one 2 (by norm_num [p_one]) (by norm_num) (by norm_num [p_one])⟩

/-! ## `sarkas/potentials/tabulated.py` -/

/-- The 2-D slice `pot_matrix` handed to `tab_force`: row 0 is the distance
grid, row 1 the tabulated potential, row 2 the tabulated force, row 3 the
tabulated force derivative (`tabulated.py` lines 48-51, `update_params`
lines 137-140).  All rows have the same length (`params_len`), recorded by
the two proofs. -/
structure TabPotMatrix where
  rtab : List ℝ
  utab : List ℝ
  ftab : List ℝ
  f2tab : List ℝ
  hu : utab.length = rtab.length
  hf : ftab.length = rtab.length

/-- `tab_force(r, pot_matrix)` from `tabulated.py` lines 25-58, under a
semantics in which an out-of-bounds array read yields an arbitrary value
`mem` (numba `nopython` mode performs no bounds check; the source comment
notes that numba "was grabbing the wrong array element when rbin > rc").
`dr = pot_matrix[0, 0]`, `rbin = int(r / dr)` (truncation, which is the
floor for the non-negative arguments of the claim), and each returned
component is the row entry at `rbin` multiplied by the Python boolean
`rbin < pot_matrix.shape[1]`, plus `0.0`. -/
noncomputable def tab_force (mem : ℝ) (r : ℝ) (M : TabPotMatrix) : ℝ × ℝ :=
  let dr := M.rtab.headD 0
  let rbin := (⌊r / dr⌋).toNat
  (M.utab.getD rbin mem * pyBool (rbin < M.rtab.length) + 0,
   M.ftab.getD rbin mem * pyBool (rbin < M.rtab.length) + 0)

/-- `tab_force` under a bounds-checked semantics: the table reads
`pot_matrix[1, rbin]` and `pot_matrix[2, rbin]` return `none` when `rbin`
is past the end of the table.  The reads happen unconditionally, before
the multiplication by the out-of-range flag. -/
noncomputable def tab_force_checked (r : ℝ) (M : TabPotMatrix) : Option (ℝ × ℝ) :=
  let dr := M.rtab.headD 0
  let rbin := (⌊r / dr⌋).toNat
  match M.utab.get? rbin, M.ftab.get? rbin with
  | some u, some f =>
      some (u * pyBool (rbin < M.rtab.length) + 0, f * pyBool (rbin < M.rtab.length) + 0)
  | _, _ => none

/-- Concrete one-entry table for the C2 counterexample and witness:
grid `[1]`, potential `[5]`, force `[7]`, so `dr = 1` and `L = 1`. -/
def tab_one : TabPotMatrix := ⟨[1], [5], [7], [0], rfl, rfl⟩

/-- Claim C2 counterexample: at `r = 3` on the one-entry table `tab_one`
(`dr = 1`, length `L = 1`), `bin = 3 >= L`, and the lookup
`pot_matrix[1, 3]` is out of bounds: under the bounds-checked semantics the
call does not return `(0.0, 0.0)` — there is no execution without an
out-of-bounds table access. -/
theorem tab_force_oob_access : tab_force_checked 3 tab_one = none := by
  have h3 : ((3 : ℝ) / 1) = 3 := by norm_num
  simp [tab_force_checked, tab_one, h3]

/-- Claim C2 (amended): for `r >= 0` and positive grid spacing
`dr = pot_matrix[0, 0]`, with `bin = floor(r/dr)` and table length
`L = pot_matrix.shape[1]`: if `bin >= L` the function still performs the
table read at index `bin` — an out-of-bounds access — but multiplies the
fetched value by zero, so it returns `(0.0, 0.0)` whatever value `mem` the
read yields; if `bin < L` it returns the tabulated values
`(pot_matrix[1, bin], pot_matrix[2, bin])`. -/
theorem tab_force_clamp (mem r : ℝ) (M : TabPotMatrix)
    (hr : 0 ≤ r) (hdr : 0 < M.rtab.headD 0) :
    ((M.rtab.length ≤ (⌊r / M.rtab.headD 0⌋).toNat →
        tab_force mem r M = (0, 0)) ∧
     ((⌊r / M.rtab.headD 0⌋).toNat < M.rtab.length →
        tab_force mem r M =
          (M.utab.getD (⌊r / M.rtab.headD 0⌋).toNat 0,
           M.ftab.getD (⌊r / M.rtab.headD 0⌋).toNat 0))) := by
  constructor
  · intro hL
    simp only [tab_force, pyBool]
    rw [if_neg (not_lt.mpr hL)]
    simp
  · intro hL
    simp only [tab_force, pyBool]
    rw [if_pos hL]
    rw [List.getD_eq_getElem?_getD, List.getD_eq_getElem?_getD,
        List.getD_eq_getElem?_getD, List.getD_eq_getElem?_getD]
    rw [List.getElem?_eq_getElem (by rw [M.hu]; exact hL),
        List.getElem?_eq_getElem (by rw [M.hf]; exact hL)]
    simp

theorem tab_force_clamp_witness :
    (0 : ℝ) ≤ 3 ∧ (0 : ℝ) < tab_one.rtab.headD 0 ∧ tab_force 42 3 tab_one = (0, 0) := by
  have happ := (tab_force_clamp 42 3 tab_one (by norm_num) (by norm_num [tab_one])).1
  refine ⟨by norm_num, by norm_num [tab_one], happ ?_⟩
  have h3 : ((3 : ℝ) / tab_one.rtab.headD 0) = 3 := by norm_num [tab_one]
  rw [h3]
  norm_num [tab_one]

/-! ## `sarkas/utilities/maths.py` -/

/-- Python-level failures raised by the embedded functions: an
`AlgorithmError` raised explicitly, or the `UnboundLocalError` produced by
reading a local variable that no branch assigned. -/
inductive PyError
  | algorithmError : String → PyError
  | unboundLocal : String → PyError
deriving DecidableEq

/-- `TWOPI = 2.0 * np.pi` (`maths.py` line 6). -/
noncomputable def TWOPI : ℝ := 2 * Real.pi

/-- `numpy.ndarray.min` on a non-empty 1-D array, as a fold. -/
noncomputable def np_min (xs : List ℝ) : ℝ := xs.foldl min (xs.headD 0)

/-- `numpy.ndarray.max` on a non-empty 1-D array, as a fold. -/
noncomputable def np_max (xs : List ℝ) : ℝ := xs.foldl max (xs.headD 0)

/-- `force_error_analytic_pp` from `maths.py` lines 70-111.  The parameter
matrix is indexed as `potential_matrix[slot, i, j]`; `num_slots` and
`num_species` are its first two dimensions.  The body computes and rescales
`force_error` but the function has NO `return` statement, so a completed
call returns Python's `None` (`Except.ok none`); when `potential_type`
matches no branch, the final line `force_error *= rescaling_const` reads an
unbound local and raises `UnboundLocalError`. -/
noncomputable def force_error_analytic_pp (potential_type : String) (cutoff_length : ℝ)
    (potential_matrix : ℕ → ℕ → ℕ → ℝ) (num_slots num_species : ℕ)
    (rescaling_const : ℝ) : Except PyError (Option ℝ) :=
  if potential_type = "yukawa" ∨ potential_type = "egs" then
    let force_error := Real.sqrt (TWOPI * potential_matrix 1 0 0) *
      Real.exp (-(cutoff_length * potential_matrix 1 0 0))
    let force_error := force_error * rescaling_const
    Except.ok none
  else if potential_type = "moliere" then
    let force_error := Real.sqrt (TWOPI *
        np_min ((List.range num_slots).map (fun k => potential_matrix k 0 0))) *
      Real.exp (-(cutoff_length * potential_matrix 1 0 0))
    let force_error := force_error * rescaling_const
    Except.ok none
  else if potential_type = "lj" then
    let sigma := np_max (((List.range num_species).map
      (fun i => (List.range num_species).map (fun j => potential_matrix 1 i j))).flatten)
    let high_pow := potential_matrix 2 0 0
    let exponent := 2 * high_pow - 1
    let force_error_tmp := high_pow ^ 2 * sigma ^ (2 * high_pow) / cutoff_length ^ exponent
    let force_error_tmp := force_error_tmp / exponent
    let force_error := Real.sqrt force_error_tmp
    let force_error := force_error * rescaling_const
    Except.ok none
  else
    Except.error (PyError.unboundLocal "force_error")

/-- The tail of `egs.update_params` (`egs.py` lines 168-203): build the
parameter matrix, raise `AlgorithmError` when `potential.method == "pppm"`,
otherwise set `params.force_error` to the value of the
`force_error_analytic_pp` call (with rescaling constant
`sqrt(3 a_ws / (4 pi))`), propagating any error that call raises. -/
noncomputable def egs_update_params (S : ℕ)
    (nu alpha alphap lambda_m lambda_p gamma_m gamma_p fourpie0 a_rs rc a_ws : ℝ)
    (q : ℕ → ℝ) (method potential_type : String) :
    Except PyError ((ℕ → ℕ → ℕ → ℝ) × Option ℝ) :=
  let matrix := egs_matrix S nu alpha alphap lambda_m lambda_p gamma_m gamma_p fourpie0 a_rs q
  if method = "pppm" then
    Except.error (PyError.algorithmError "pppm algorithm not implemented yet.")
  else
    match force_error_analytic_pp potential_type rc matrix 7 S
        (Real.sqrt (3 * a_ws / (4 * Real.pi))) with
    | Except.ok fe => Except.ok (matrix, fe)
    | Except.error e => Except.error e

/-- Claim C10 counterexample: called with the capitalized type string
`"EGS"` — the spelling this repository's configuration layer stores and
compares (`params.py` line 964) — no branch of `force_error_analytic_pp`
matches, and the call raises `UnboundLocalError` at the rescaling line
instead of returning `None`.  So it is not the case that every input makes
the function return `None`. -/
theorem force_error_analytic_pp_egs_crash :
    force_error_analytic_pp "EGS" 1 (fun _ _ _ => 0) 7 1 1 =
      Except.error (PyError.unboundLocal "force_error") := by
  simp [force_error_analytic_pp]

/-- Claim C10 (amended): `force_error_analytic_pp` contains no `return`
statement, so for every input whose `potential_type` is one of the
lowercase labels `"yukawa"`, `"egs"`, `"moliere"`, `"lj"` it computes and
rescales the force error and then returns `None`; for any other type
string the final rescaling line raises `UnboundLocalError`.  Consequently
`egs.update_params`, which forwards the repository's capitalized type
string `"EGS"`, crashes at its `params.force_error` assignment rather than
storing the computed force error (it stores `None` only when handed an
exactly-matching lowercase label). -/
theorem force_error_analytic_pp_returns_none (potential_type : String) (cutoff_length : ℝ)
    (potential_matrix : ℕ → ℕ → ℕ → ℝ) (num_slots num_species : ℕ) (rescaling_const : ℝ) :
    ((potential_type = "yukawa" ∨ potential_type = "egs" ∨ potential_type = "moliere" ∨
        potential_type = "lj") →
      force_error_analytic_pp potential_type cutoff_length potential_matrix
        num_slots num_species rescaling_const = Except.ok none) ∧
    (potential_type ≠ "yukawa" → potential_type ≠ "egs" → potential_type ≠ "moliere" →
      potential_type ≠ "lj" →
      force_error_analytic_pp potential_type cutoff_length potential_matrix
        num_slots num_species rescaling_const =
        Except.error (PyError.unboundLocal "force_error")) ∧
    (∀ (S : ℕ) (nu alpha alphap lambda_m lambda_p gamma_m gamma_p fourpie0 a_rs rc a_ws : ℝ)
        (q : ℕ → ℝ) (method : String), method ≠ "pppm" →
      egs_update_params S nu alpha alphap lambda_m lambda_p gamma_m gamma_p fourpie0 a_rs
          rc a_ws q method "EGS" =
        Except.error (PyError.unboundLocal "force_error")) := by
  refine ⟨?_, ?_, ?_⟩
  · rintro (h | h | h | h) <;> simp [force_error_analytic_pp, h]
  · intro h1 h2 h3 h4
    simp [force_error_analytic_pp, h1, h2, h3, h4]
  · intro S nu alpha alphap lambda_m lambda_p gamma_m gamma_p fourpie0 a_rs rc a_ws q method hm
    simp [egs_update_params, hm, force_error_analytic_pp]

theorem force_error_analytic_pp_returns_none_witness :
    force_error_analytic_pp "yukawa" 1 (fun _ _ _ => 0) 7 1 1 = Except.ok none :=
  (force_error_analytic_pp_returns_none "yukawa" 1 (fun _ _ _ => 0) 7 1 1).1 (Or.inl rfl)

/-- Helper: `force_error_analytic_pp` can only fail with the
`UnboundLocalError` on `force_error`; it never raises an `AlgorithmError`. -/
theorem force_error_analytic_pp_error_eq (potential_type : String) (cutoff_length : ℝ)
    (potential_matrix : ℕ → ℕ → ℕ → ℝ) (num_slots num_species : ℕ) (rescaling_const : ℝ)
    (e : PyError)
    (h : force_error_analytic_pp potential_type cutoff_length potential_matrix
      num_slots num_species rescaling_const = Except.error e) :
    e = PyError.unboundLocal "force_error" := by
  unfold force_error_analytic_pp at h
  split_ifs at h
  all_goals simp_all

/-- Claim C5 (code bug): the configuration layer stores the force-computation
method exactly as written in the input (`params.py` lines 653-654), and both
its documentation (`params.py` lines 285-288) and the spec name that string
`"P3M"`; but the guard in `egs.update_params` (`egs.py` line 192) compares
against the lowercase `"pppm"`, so with method `"P3M"` the comparison is
false and no `AlgorithmError` is ever raised: for every parameter state and
every message, the call with method `"P3M"` does not produce an
`AlgorithmError`. -/
theorem egs_update_params_p3m_no_algorithm_error (S : ℕ)
    (nu alpha alphap lambda_m lambda_p gamma_m gamma_p fourpie0 a_rs rc a_ws : ℝ)
    (q : ℕ → ℝ) (potential_type : String) (msg : String) :
    egs_update_params S nu alpha alphap lambda_m lambda_p gamma_m gamma_p fourpie0 a_rs
        rc a_ws q "P3M" potential_type ≠
      Except.error (PyError.algorithmError msg) := by
  intro h
  simp only [egs_update_params] at h
  rw [if_neg (by decide)] at h
  cases hfe : force_error_analytic_pp potential_type rc
      (egs_matrix S nu alpha alphap lambda_m lambda_p gamma_m gamma_p fourpie0 a_rs q) 7 S
      (Real.sqrt (3 * a_ws / (4 * Real.pi))) with
  | ok fe =>
    rw [hfe] at h
    simp at h
  | error e =>
    rw [hfe] at h
    simp at h
    have h2 := force_error_analytic_pp_error_eq _ _ _ _ _ _ _ hfe
    rw [h2] at h
    exact PyError.noConfusion h

/-! ## `force_error_approx_pppm` (`maths.py` lines 8-67) -/

/-- `yukawa_green_function(x, alpha, kappa)` from `maths.py` lines 8-13. -/
noncomputable def yukawa_green_function (x alpha kappa : ℝ) : ℝ :=
  4 * Real.pi * Real.exp (-(x ^ 2 + kappa ^ 2) / (2 * alpha) ^ 2) / (kappa ^ 2 + x ^ 2)

/-- `np.linspace(a, b, n)`: `n` evenly spaced points from `a` to `b`. -/
noncomputable def np_linspace (a b : ℝ) (n : ℕ) : List ℝ :=
  (List.range n).map (fun i => a + (b - a) * i / (n - 1))

/-- `np.trapz(ys, x=xs)`: composite trapezoid rule over the sample points. -/
noncomputable def np_trapz : List ℝ → List ℝ → ℝ
  | y0 :: y1 :: ys, x0 :: x1 :: xs => (x1 - x0) * (y0 + y1) / 2 + np_trapz (y1 :: ys) (x1 :: xs)
  | _, _ => 0

/-- `betamp(m, p, alpha, kappa)` from `maths.py` lines 16-28: the trapezoid
integral of `Gk^2 * x^(2(m+p+2))` over `linspace(0.0001, 500, 5000)`. -/
noncomputable def betamp (m p : ℕ) (alpha kappa : ℝ) : ℝ :=
  let xa := np_linspace 0.0001 500 5000
  np_trapz (xa.map (fun x => yukawa_green_function x alpha kappa *
    yukawa_green_function x alpha kappa * x ^ (2 * (m + p + 2)))) xa

/-- The Deserno-Holm coefficient table of `force_error_approx_pppm`
(`maths.py` lines 37-53): `Cmp` is assigned only for `p = 1..7`. -/
def cmp_table (p : ℕ) : Option (List ℚ) :=
  if p = 1 then some [2 / 3]
  else if p = 2 then some [2 / 45, 8 / 189]
  else if p = 3 then some [4 / 495, 2 / 225, 8 / 1485]
  else if p = 4 then some [2 / 4725, 16 / 10395, 5528 / 3869775, 32 / 42525]
  else if p = 5 then some [4 / 93555, 2764 / 11609325, 8 / 25515, 7234 / 32531625,
    350936 / 3206852775]
  else if p = 6 then some [2764 / 638512875, 16 / 467775, 7234 / 119282625,
    1403744 / 25196700375, 1396888 / 40521009375, 2485856 / 152506344375]
  else if p = 7 then some [8 / 18243225, 7234 / 1550674125, 701872 / 65511420975,
    2793776 / 225759909375, 1242928 / 132172165125, 1890912728 / 352985880121875,
    21053792 / 8533724574375]
  else none

/-- `force_error_approx_pppm(kappa, rc, p, h, alpha)` from `maths.py`
lines 31-67.  When `p` is outside `1..7` and the loop body runs (`p >= 1`),
the read of `Cmp` raises `UnboundLocalError`; otherwise the function
returns the triple `(Tot_DeltaF, pp_force_error, pm_force_error)` computed
exactly as in the source. -/
noncomputable def force_error_approx_pppm (kappa rc : ℝ) (p : ℕ) (h alpha : ℝ) :
    Except PyError (ℝ × ℝ × ℝ) :=
  if 1 ≤ p ∧ cmp_table p = none then Except.error (PyError.unboundLocal "Cmp")
  else
    let Cmp := (cmp_table p).getD []
    let somma := ∑ m ∈ Finset.range p,
      (Cmp.getD m 0 : ℝ) * (2 / (1 + 2 * ((m : ℝ) + p))) * betamp m p alpha kappa *
        (h / 2) ^ (2 * (m + p))
    let pm_force_error := Real.sqrt (3 * somma) / (2 * Real.pi)
    let pp_force_error := 2 * Real.exp (-(0.5 * kappa / alpha) ^ 2 - alpha ^ 2 * rc ^ 2) /
      Real.sqrt rc
    Except.ok (Real.sqrt (pm_force_error ^ 2 + pp_force_error ^ 2),
      pp_force_error, pm_force_error)

/-- Claim C6 counterexample: the claimed PP error formula
`2 e^{-alpha^2 rc^2} / sqrt(N rc V)` depends only on `alpha`, `rc` and the
run constants `N`, `V`, so at fixed `rc = alpha = 1` it forces the second
returned component to be the same for `kappa = 2` and `kappa = 0`; the code
returns `2 e^{-(kappa/(2 alpha))^2 - alpha^2 rc^2}/sqrt(rc)`, which differs
between the two calls (`2 e^{-2}` versus `2 e^{-1}`). -/
theorem force_error_approx_pppm_pp_kappa :
    (force_error_approx_pppm 2 1 3 1 1).map (fun t => t.2.1) ≠
      (force_error_approx_pppm 0 1 3 1 1).map (fun t => t.2.1) := by
  have hguard : ¬ (1 ≤ 3 ∧ cmp_table 3 = none) := by simp [cmp_table]
  intro h
  simp only [force_error_approx_pppm, if_neg hguard, Except.map] at h
  rw [Except.ok.injEq] at h
  rw [Real.sqrt_one, div_one, div_one] at h
  have h2 : Real.exp (-(0.5 * 2 / 1) ^ 2 - 1 ^ 2 * 1 ^ 2) =
      Real.exp (-(0.5 * 0 / 1) ^ 2 - 1 ^ 2 * 1 ^ 2) := by linarith
  rw [Real.exp_eq_exp] at h2
  norm_num at h2

/-- Claim C6 (amended): for every `p` in `1..7`, `force_error_approx_pppm`
selects a coefficient array `Cmp` of length exactly `p` (the Deserno-Holm
table), returns as first component the quadrature sum
`sqrt(pp_err^2 + pm_err^2)` of the other two components, and returns as
`pp_err` the (Yukawa-generalized, system-size-free) real-space estimate
`2 e^{-(kappa/(2 alpha))^2 - alpha^2 rc^2} / sqrt(rc)`; for `p >= 8` the
loop reads the never-assigned `Cmp` and the function has no defined
result. -/
theorem force_error_approx_pppm_spec (kappa rc h alpha : ℝ) :
    (∀ p : ℕ, 1 ≤ p → p ≤ 7 →
      ((cmp_table p).getD []).length = p ∧
      ∃ tot pp pm, force_error_approx_pppm kappa rc p h alpha = Except.ok (tot, pp, pm) ∧
        tot = Real.sqrt (pp ^ 2 + pm ^ 2) ∧
        pp = 2 * Real.exp (-(0.5 * kappa / alpha) ^ 2 - alpha ^ 2 * rc ^ 2) / Real.sqrt rc) ∧
    (∀ p : ℕ, 8 ≤ p →
      force_error_approx_pppm kappa rc p h alpha =
        Except.error (PyError.unboundLocal "Cmp")) := by
  constructor
  · intro p h1 h7
    have hsome : ¬ (1 ≤ p ∧ cmp_table p = none) := by
      interval_cases p <;> simp [cmp_table]
    constructor
    · interval_cases p <;> rfl
    · have hbase : ∃ pm, force_error_approx_pppm kappa rc p h alpha =
          Except.ok (Real.sqrt (pm ^ 2 +
              (2 * Real.exp (-(0.5 * kappa / alpha) ^ 2 - alpha ^ 2 * rc ^ 2) /
                Real.sqrt rc) ^ 2),
            2 * Real.exp (-(0.5 * kappa / alpha) ^ 2 - alpha ^ 2 * rc ^ 2) / Real.sqrt rc,
            pm) := by
        simp only [force_error_approx_pppm, if_neg hsome]
        exact ⟨_, rfl⟩
      obtain ⟨pm, hval⟩ := hbase
      exact ⟨_, _, pm, hval, by rw [add_comm], rfl⟩
  · intro p h8
    have hnone : cmp_table p = none := by
      simp only [cmp_table]
      rw [if_neg (by omega), if_neg (by omega), if_neg (by omega), if_neg (by omega),
        if_neg (by omega), if_neg (by omega), if_neg (by omega)]
    simp only [force_error_approx_pppm]
    rw [if_pos ⟨by omega, hnone⟩]

theorem force_error_approx_pppm_spec_witness :
    (((cmp_table 3).getD []).length = 3 ∧
      ∃ tot pp pm, force_error_approx_pppm 1 1 3 1 1 = Except.ok (tot, pp, pm) ∧
        tot = Real.sqrt (pp ^ 2 + pm ^ 2) ∧
        pp = 2 * Real.exp (-(0.5 * 1 / 1) ^ 2 - 1 ^ 2 * 1 ^ 2) / Real.sqrt 1) ∧
    force_error_approx_pppm 1 1 9 1 1 = Except.error (PyError.unboundLocal "Cmp") :=
  ⟨(force_error_approx_pppm_spec 1 1 1 1).1 3 (by norm_num) (by norm_num),
   (force_error_approx_pppm_spec 1 1 1 1).2 9 (by norm_num)⟩

/-! ## `sarkas/simulation/params.py` -/

/-- The simulation-box section of `Params.assign_attributes`
(`params.py` lines 969-980): when `np_per_side` is non-empty the code
asserts `prod(np_per_side) == total_num_ptcls` (an `AssertionError`,
modelled as `none`, aborts setup) and then sets
`L_k = aws * np_per_side[k] * (4 pi / 3)^(1/3)`; when it is empty the box
is cubic with side `aws * (4 pi N / 3)^(1/3)`. -/
noncomputable def assign_attributes_box (np_per_side : List ℕ) (total_num_ptcls : ℕ)
    (aws : ℝ) : Option (ℝ × ℝ × ℝ) :=
  if np_per_side.length ≠ 0 then
    if np_per_side.prod = total_num_ptcls then
      some (aws * np_per_side.getD 0 0 * (4 * Real.pi / 3) ^ ((1 : ℝ) / 3),
            aws * np_per_side.getD 1 0 * (4 * Real.pi / 3) ^ ((1 : ℝ) / 3),
            aws * np_per_side.getD 2 0 * (4 * Real.pi / 3) ^ ((1 : ℝ) / 3))
    else none
  else
    some (aws * (4 * Real.pi * total_num_ptcls / 3) ^ ((1 : ℝ) / 3),
          aws * (4 * Real.pi * total_num_ptcls / 3) ^ ((1 : ℝ) / 3),
          aws * (4 * Real.pi * total_num_ptcls / 3) ^ ((1 : ℝ) / 3))

/-- Claim C7 counterexample: with `np_per_side = [2, 2, 2]` and `N = 8` the
sum `2+2+2 = 6` differs from `N`, yet `assign_attributes_box` completes
(the code checks the product `2*2*2 = 8 = N`, not the sum), so the claim
that setup fails whenever `sum(np_per_side) != N` is false. -/
theorem assign_attributes_box_sum_mismatch_ok :
    ([2, 2, 2] : List ℕ).sum ≠ 8 ∧
      (assign_attributes_box [2, 2, 2] 8 1).isSome = true := by
  constructor
  · decide
  · simp [assign_attributes_box]

/-- Claim C7 (amended): for every non-empty `np_per_side`, setup fails
(the assertion raises) exactly when the product of `np_per_side` — the
particle number implied by a per-side lattice count — differs from the
total particle count `N`; when the product equals `N` the call completes
and sets the box lengths from `np_per_side`. -/
theorem assign_attributes_box_spec (np_per_side : List ℕ) (N : ℕ) (aws : ℝ)
    (hne : np_per_side ≠ []) :
    (np_per_side.prod ≠ N → assign_attributes_box np_per_side N aws = none) ∧
    (np_per_side.prod = N → assign_attributes_box np_per_side N aws =
      some (aws * np_per_side.getD 0 0 * (4 * Real.pi / 3) ^ ((1 : ℝ) / 3),
            aws * np_per_side.getD 1 0 * (4 * Real.pi / 3) ^ ((1 : ℝ) / 3),
            aws * np_per_side.getD 2 0 * (4 * Real.pi / 3) ^ ((1 : ℝ) / 3))) := by
  have hlen : np_per_side.length ≠ 0 := by
    simpa [List.length_eq_zero] using hne
  constructor
  · intro hprod
    simp [assign_attributes_box, hlen, hprod]
  · intro hprod
    simp [assign_attributes_box, hlen, hprod]

theorem assign_attributes_box_spec_witness :
    ([2, 2, 2] : List ℕ) ≠ [] ∧ ([2, 2, 2] : List ℕ).prod = 8 ∧
      assign_attributes_box [2, 2, 2] 8 1 =
        some ((1 : ℝ) * ((2 : ℕ) : ℝ) * (4 * Real.pi / 3) ^ ((1 : ℝ) / 3),
              (1 : ℝ) * ((2 : ℕ) : ℝ) * (4 * Real.pi / 3) ^ ((1 : ℝ) / 3),
              (1 : ℝ) * ((2 : ℕ) : ℝ) * (4 * Real.pi / 3) ^ ((1 : ℝ) / 3)) := by
  refine ⟨by decide, by decide, ?_⟩
  have happ := (assign_attributes_box_spec [2, 2, 2] 8 1 (by decide)).2 (by decide)
  simpa using happ

/-- The three boundary-condition axes of `params.py`. -/
inductive BCAxis
  | x
  | y
  | z
deriving DecidableEq

/-- The axis-to-index mapping used by the `pbc/mm/open` loops of
`Params.assign_attributes` (`params.py` lines 996-1026). -/
def bc_axis_index : BCAxis → ℕ
  | BCAxis.x => 0
  | BCAxis.y => 1
  | BCAxis.z => 2

/-- The boundary-condition section of `Params.assign_attributes`
(`params.py` lines 995-1027).  The periodic axes are mapped to indices;
if `mm_axes` is non-empty the code prints and calls `sys.exit()`
(modelled as `none`; the `mm_axes_indx` loop after the exit is
unreachable); the `open_axes` loop then records the open-axis indices and
the method returns normally.  Result: `(pbc_axes_indx, open_axes_indx)`. -/
def assign_attributes_bc (pbc_axes mm_axes open_axes : List BCAxis) :
    Option (List ℕ × List ℕ) :=
  let pbc_axes_indx := pbc_axes.map bc_axis_index
  if mm_axes ≠ [] then none
  else
    let open_axes_indx := open_axes.map bc_axis_index
    some (pbc_axes_indx, open_axes_indx)

/-- Claim C8 counterexample: a configuration requesting an open boundary
axis (`open_axes = [x]`, no mirror axes) completes
`Params.assign_attributes` normally — the hard `sys.exit()` guards only
`mm_axes` — so the claim that open-boundary requests terminate setup is
false. -/
theorem assign_attributes_bc_open_completes :
    ([BCAxis.x] : List BCAxis) ≠ [] ∧
      assign_attributes_bc [] [] [BCAxis.x] = some ([], [0]) := by
  constructor
  · decide
  · decide

/-- Claim C8 (amended): `Params.assign_attributes` terminates setup (via
`sys.exit()`) exactly when momentum-mirror axes are requested; when
`mm_axes` is empty it completes normally for every `open_axes` value,
merely recording the open-axis indices. -/
theorem assign_attributes_bc_spec (pbc_axes mm_axes open_axes : List BCAxis) :
    (mm_axes ≠ [] → assign_attributes_bc pbc_axes mm_axes open_axes = none) ∧
    (mm_axes = [] → assign_attributes_bc pbc_axes mm_axes open_axes =
      some (pbc_axes.map bc_axis_index, open_axes.map bc_axis_index)) := by
  constructor
  · intro hmm
    simp [assign_attributes_bc, hmm]
  · intro hmm
    simp [assign_attributes_bc, hmm]

theorem assign_attributes_bc_spec_witness :
    ([] : List BCAxis) = [] ∧
      assign_attributes_bc [BCAxis.x, BCAxis.y] [] [BCAxis.z] =
        some (([BCAxis.x, BCAxis.y] : List BCAxis).map bc_axis_index,
              ([BCAxis.z] : List BCAxis).map bc_axis_index) :=
  ⟨rfl, (assign_attributes_bc_spec [BCAxis.x, BCAxis.y] [] [BCAxis.z]).2 rfl⟩

/-- The magnetization check at the end of `Params.common_parser`
(`params.py` lines 828-831): only when `Magnetic.on` AND
`Magnetic.elec_therm` are both set does the code touch the integrator,
and then it assigns `integrator.mag_type = value` — `value` being the
stale last loop variable of the parser — and `integrator.type = "Verlet"`.
Returns the pair `(integrator.type, integrator.mag_type)` after the
check, where `parsed_type` is the type the `Integrator` section parsed
and `last_value` the stale parser variable. -/
def common_parser_magnetic (magnetic_on elec_therm : Bool)
    (parsed_type last_value : String) : String × Option String :=
  if magnetic_on && elec_therm then ("Verlet", some last_value)
  else (parsed_type, none)

/-- Claim C9 (code bug): with magnetization on but `elec_therm` false, the
parser leaves the integrator type exactly as parsed and never selects any
magnetized integrator (`mag_type` stays unset), contradicting the intended
semantics — stated in the spec — that the magnetized Verlet integrator is
always used when `magnetized = True`.  (Even with `elec_therm` true the
code sets the type to plain `"Verlet"` and `mag_type` to a stale parser
variable.) -/
theorem common_parser_magnetic_ignores_magnetization (parsed_type last_value : String) :
    common_parser_magnetic true false parsed_type last_value = (parsed_type, none) := by
  rfl
